import Mathlib

/-!
Shallow embedding of the EchoAI voice-assistant service layer
(geminiService.ts together with its shared types.ts) in Lean 4.

Modelling conventions:
* JavaScript numbers that carry audio-clock times, durations and playback
  speeds are modelled as rationals (ℚ); durations and speeds in the claims
  are finite, and the code performs only max, addition and division on them.
* JavaScript strings are Lean `String`s; the JS falsiness of a string
  (`s || fallback`, `if (!s)`) is the test `s = ""`; an absent/undefined
  string field is modelled as the empty string or an `Option` as noted.
* `process.env` is a record `Env` with the two variables the code reads.
* The browser audio graph (AudioContext, GainNode, AudioBufferSourceNode)
  is external; the state the service itself owns — the playback cursor
  `nextStartTime`, the set `activeSources` of scheduled source handles
  (handles modelled by numeric ids) and `currentAudioSettings` — is the
  structure `SvcState`.  The context clock is passed in as the value
  `now` that `audioContext.currentTime` has when a handler runs.
* Network effects are external: a handler that consumes a backend reply
  takes the decoded reply as an argument, and run-functions record in a
  `networkCalled` flag whether control reached the network call.
-/

namespace EchoAI

/-- types.ts: `enum MessageRole { USER, ASSISTANT, SYSTEM }`. -/
inductive MessageRole where
  | user
  | assistant
  | system
deriving DecidableEq, Repr

/-- types.ts: `interface GroundingSource { title: string; uri: string }`. -/
structure GroundingSource where
  title : String
  uri : String
deriving DecidableEq, Repr

/-- types.ts: `interface ChatMessage` (id, role, content, timestamp,
optional isVoice, optional sources). -/
structure ChatMessage where
  id : String
  role : MessageRole
  content : String
  timestamp : ℚ
  isVoice : Option Bool
  sources : Option (List GroundingSource)
deriving DecidableEq, Repr

/-- types.ts: `interface AudioSettings { volume: number; speed: number }`. -/
structure AudioSettings where
  volume : ℚ
  speed : ℚ
deriving DecidableEq, Repr

/-- The mutable fields of `class GeminiService` that the claims are about:
`nextStartTime` (the playback cursor), `activeSources` (the tracked
`AudioBufferSourceNode`s, as ids) and `currentAudioSettings`. -/
structure SvcState where
  nextStartTime : ℚ
  activeSources : List Nat
  currentAudioSettings : AudioSettings
deriving DecidableEq, Repr

/-- The initial field values of `GeminiService`: cursor 0, no sources,
volume 0.8, speed 1.0. -/
def initialState : SvcState :=
  { nextStartTime := 0
    activeSources := []
    currentAudioSettings := { volume := 8/10, speed := 1 } }

/-- `setAudioSettings(settings)`: stores the settings (the smoothed gain
ramp happens on the external gain node and is not part of the owned
state). -/
def setAudioSettings (st : SvcState) (settings : AudioSettings) : SvcState :=
  { st with currentAudioSettings := settings }

/-- `stopAudio()`: stops every tracked source (each `s.stop()` is wrapped
in its own try/catch in the code, so the loop never throws), clears the
set, and resets the cursor to 0. -/
def stopAudio (st : SvcState) : SvcState :=
  { st with activeSources := [], nextStartTime := 0 }

/-- The `ended` listener registered on each live-session source:
`this.activeSources.delete(source)`. -/
def sourceEnded (st : SvcState) (srcId : Nat) : SvcState :=
  { st with activeSources := st.activeSources.erase srcId }

/-- Result of scheduling one inbound live-audio chunk: the time the
source was started at, and the service state afterwards. -/
structure EnqueueResult where
  start : ℚ
  state : SvcState
deriving DecidableEq, Repr

/-- The audio branch of `connectLive`.onmessage, for one decoded chunk of
duration `dur` arriving when the output clock reads `now`:
`nextStartTime = max(nextStartTime, currentTime)`;
`source.start(nextStartTime)`;
`nextStartTime += audioBuffer.duration / speed`;
`activeSources.add(source)`. -/
def enqueueChunk (st : SvcState) (now dur : ℚ) (srcId : Nat) : EnqueueResult :=
  let start := max st.nextStartTime now
  { start := start
    state := { st with
                nextStartTime := start + dur / st.currentAudioSettings.speed
                activeSources := srcId :: st.activeSources } }

/-- One inbound audio chunk as the sequencer sees it: the output-clock
reading when its message is handled, its decoded duration, and a fresh id
for the source node created for it. -/
structure ChunkIn where
  now : ℚ
  dur : ℚ
  srcId : Nat
deriving DecidableEq, Repr

/-- A sequence of inbound audio chunks handled back to back: returns the
list of scheduled start times and the final state. -/
def runEnqueues (st : SvcState) : List ChunkIn → List ℚ × SvcState
  | [] => ([], st)
  | c :: rest =>
      let r := enqueueChunk st c.now c.dur c.srcId
      let (starts, fin) := runEnqueues r.state rest
      (r.start :: starts, fin)

theorem enqueueChunk_settings (st : SvcState) (now dur : ℚ) (srcId : Nat) :
    (enqueueChunk st now dur srcId).state.currentAudioSettings
      = st.currentAudioSettings := rfl

theorem runEnqueues_length (st : SvcState) (chunks : List ChunkIn) :
    (runEnqueues st chunks).1.length = chunks.length := by
  induction chunks generalizing st with
  | nil => rfl
  | cons c rest ih => simp [runEnqueues, ih]

/-- Characterisation of consecutive scheduled start times: the start of
chunk `k+1` is the max of (start of chunk `k` plus duration `k` over the
fixed speed) and the clock reading when chunk `k+1` arrives. -/
theorem runEnqueues_start_succ (st : SvcState) (chunks : List ChunkIn)
    (k : Nat) (hk : k + 1 < chunks.length) :
    (runEnqueues st chunks).1.getD (k + 1) 0 =
      max ((runEnqueues st chunks).1.getD k 0
             + (chunks.getD k ⟨0, 0, 0⟩).dur / st.currentAudioSettings.speed)
          (chunks.getD (k + 1) ⟨0, 0, 0⟩).now := by
  induction chunks generalizing st k with
  | nil => simp at hk
  | cons c rest ih =>
      cases k with
      | zero =>
          cases rest with
          | nil => simp at hk
          | cons c2 r2 =>
              simp [runEnqueues, enqueueChunk]
      | succ k =>
          have hk' : k + 1 < rest.length := by
            simpa using hk
          have := ih (enqueueChunk st c.now c.dur c.srcId).state k hk'
          simpa [runEnqueues, enqueueChunk] using this

/-- The process configuration, holding the two variables the code reads:
`process.env.API_KEY` and `process.env.GEMINI_API_KEY`.  An unset or empty
variable is the empty string (both are JS-falsy). -/
structure Env where
  API_KEY : String
  GEMINI_API_KEY : String
deriving DecidableEq, Repr

/-- The outcome of the TTS `generateContent` call inside `speakText`:
either the awaited call throws, or it succeeds and its reply carries
inline audio data of some decoded duration — or none at all. -/
inductive TtsOutcome where
  | err
  | ok (audio : Option ℚ)
deriving DecidableEq, Repr

/-- What a `speakText(text, voicePersona)` call leaves behind: the service
state, the error (if any) that escapes to the caller, the console log
entry (if any), and whether the backend call was reached. -/
structure SpeakResult where
  state : SvcState
  propagated : Option String
  logged : Option String
  networkCalled : Bool
deriving DecidableEq, Repr

/-- `speakText` step by step: `stopAudio()` first; the client object is
built from `process.env.API_KEY` with no presence check; everything from
the `generateContent` call to the `source.start()` sits inside one
try/catch whose handler only writes `console.error("TTS failed:", err)`.
On a reply with inline audio data, one source is created, started
immediately (plain `source.start()`, the cursor is not consulted or
advanced) and added to `activeSources`; on a reply without audio data
nothing is scheduled. -/
def speakTextRun (env : Env) (st : SvcState) (outcome : TtsOutcome)
    (srcId : Nat) : SpeakResult :=
  let _apiKey := env.API_KEY
  let st1 := stopAudio st
  match outcome with
  | .err =>
      { state := st1, propagated := none
        logged := some "TTS failed:", networkCalled := true }
  | .ok none =>
      { state := st1, propagated := none
        logged := none, networkCalled := true }
  | .ok (some _) =>
      { state := { st1 with activeSources := srcId :: st1.activeSources }
        propagated := none, logged := none, networkCalled := true }

/-- The state-touching operations of the service, as they appear in the
code: `setAudioSettings`, the audio branch of the live `onmessage`
handler, the `ended` listener of a live source, an explicit `stopAudio`
(reached from the live handle stop), the `interrupted` server signal
(which calls `stopAudio`), and a `speakText` call. -/
inductive Op where
  | setSettings (settings : AudioSettings)
  | enqueue (now dur : ℚ) (srcId : Nat)
  | ended (srcId : Nat)
  | stopAll
  | interrupted
  | speak (env : Env) (outcome : TtsOutcome) (srcId : Nat)

/-- The effect of each operation on the owned service state. -/
def step (st : SvcState) : Op → SvcState
  | .setSettings settings => setAudioSettings st settings
  | .enqueue now dur srcId => (enqueueChunk st now dur srcId).state
  | .ended srcId => sourceEnded st srcId
  | .stopAll => stopAudio st
  | .interrupted => stopAudio st
  | .speak env outcome srcId => (speakTextRun env st outcome srcId).state

/-- The operations that forcibly stop every active source (each runs
`stopAudio`): an explicit stop, the interruption signal, and the
interrupt at the head of `speakText`. -/
def Op.forciblyStops : Op → Bool
  | .stopAll => true
  | .interrupted => true
  | .speak _ _ _ => true
  | _ => false

/-- Decoded audio durations are non-negative (a property of the external
decoder, recorded as a side condition on enqueue operations). -/
def Op.durNonneg : Op → Prop
  | .enqueue _ dur _ => 0 ≤ dur
  | _ => True

/-- JS `a || b` on strings: `a` unless `a` is falsy (empty/absent). -/
def jsOrString (a b : String) : String :=
  if a = "" then b else a

/-- Credential resolution in `sendChatMessage`:
`const apiKey = process.env.API_KEY || process.env.GEMINI_API_KEY;`
followed by `if (!apiKey) throw new Error("GEMINI_API_KEY is not configured")`.
`none` means the throw is taken. -/
def resolveApiKeyChat (env : Env) : Option String :=
  let apiKey := jsOrString env.API_KEY env.GEMINI_API_KEY
  if apiKey = "" then none else some apiKey

/-- Credential resolution in `connectLive`:
`const apiKey = process.env.API_KEY as string;` followed by
`if (!apiKey) { console.error(...); callbacks.onError(new Error("API_KEY_MISSING")); return null; }`.
Only the one variable is consulted. -/
def resolveApiKeyLive (env : Env) : Option String :=
  if env.API_KEY = "" then none else some env.API_KEY

/-- One entry of the `Content[]` array sent to the backend: a role string
and the part texts. -/
structure Content where
  role : String
  parts : List String
deriving DecidableEq, Repr

/-- The history conversion in `sendChatMessage`:
`history.map(msg => ({ role: msg.role === MessageRole.USER ? 'user' : 'model', parts: [{ text: msg.content }] }))`
then `push({ role: 'user', parts: [{ text }] })`. -/
def conversationContents (text : String) (history : List ChatMessage) :
    List Content :=
  (history.map (fun msg =>
    { role := if msg.role = MessageRole.user then "user" else "model"
      parts := [msg.content] })) ++ [{ role := "user", parts := [text] }]

/-- A `web` citation chunk of the backend reply; an absent/falsy `title`
or `uri` is the empty string. -/
structure WebChunk where
  title : String
  uri : String
deriving DecidableEq, Repr

/-- One grounding chunk: may or may not carry a `web` member. -/
structure GroundingChunk where
  web : Option WebChunk
deriving DecidableEq, Repr

/-- The part of a `GenerateContentResponse` that `sendChatMessage` reads:
`response.text` (empty string models an empty or undefined reply text)
and `response.candidates?.[0]?.groundingMetadata?.groundingChunks`
(`none` models a break anywhere in that optional chain). -/
structure GenResponse where
  text : String
  groundingChunks : Option (List GroundingChunk)
deriving DecidableEq, Repr

/-- The `groundingChunks.forEach` loop:
`if (chunk.web && chunk.web.uri) sources.push({ title: chunk.web.title || "DATA_NODE", uri: chunk.web.uri })`. -/
def extractSources (chunks : List GroundingChunk) : List GroundingSource :=
  chunks.filterMap (fun chunk =>
    match chunk.web with
    | some w =>
        if w.uri = "" then none
        else some { title := jsOrString w.title "DATA_NODE", uri := w.uri }
    | none => none)

/-- `sources.filter((v, i, a) => a.findIndex(t => t.uri === v.uri) === i)`:
keep an element exactly when its index is the first index holding its uri. -/
def dedupByUri (a : List GroundingSource) : List GroundingSource :=
  ((a.enum).filter
    (fun p => a.findIdx (fun t => t.uri == p.2.uri) == p.1)).map Prod.snd

/-- The value `sendChatMessage` resolves with: `{ text, sources? }`. -/
structure ChatResult where
  text : String
  sources : Option (List GroundingSource)
deriving DecidableEq, Repr

/-- The reply processing at the tail of `sendChatMessage`:
`const outputText = response.text || "NO_RESPONSE_RECEIVED"`, the
citation flattening, the uri dedup, and
`return { text: outputText, sources: uniqueSources.length > 0 ? uniqueSources : undefined }`. -/
def processResponse (response : GenResponse) : ChatResult :=
  let outputText := jsOrString response.text "NO_RESPONSE_RECEIVED"
  let sources :=
    match response.groundingChunks with
    | some chunks => extractSources chunks
    | none => []
  let uniqueSources := dedupByUri sources
  { text := outputText
    sources := if uniqueSources.length > 0 then some uniqueSources else none }

/-- What a `sendChatMessage` call produces: the settled promise (thrown
message or resolved value) and whether the `generateContent` network call
was reached. -/
structure ChatOutcome where
  result : Except String ChatResult
  networkCalled : Bool

/-- `sendChatMessage(text, model, history, persona)` given the backend
reply `response` the network (when reached) answers with: the credential
gate throws before the network call; otherwise the history is converted
and the reply processed. -/
def sendChatMessageRun (env : Env) (text : String)
    (history : List ChatMessage) (response : GenResponse) : ChatOutcome :=
  match resolveApiKeyChat env with
  | none =>
      { result := .error "GEMINI_API_KEY is not configured"
        networkCalled := false }
  | some _ =>
      let _contents := conversationContents text history
      { result := .ok (processResponse response), networkCalled := true }

/-- Whether `navigator.mediaDevices.getUserMedia({ audio: true })`
resolves or rejects. -/
inductive MicOutcome where
  | granted
  | denied
deriving DecidableEq, Repr

/-- What a `connectLive` call produces before any inbound traffic:
whether a handle object (rather than `null`) is returned, the error
reported through `callbacks.onError` (if any), and whether the
`ai.live.connect` network call was reached. -/
structure LiveStartOutcome where
  returnedHandle : Bool
  reportedError : Option String
  networkCalled : Bool
deriving DecidableEq, Repr

/-- The start of `connectLive(voicePersona, callbacks, history)`: the
single-variable credential gate (error `API_KEY_MISSING`, return null,
no network), then microphone acquisition (error `MIC_ACCESS_DENIED`,
return null, no network), then the `ai.live.connect` call. -/
def connectLiveRun (env : Env) (mic : MicOutcome) : LiveStartOutcome :=
  match resolveApiKeyLive env with
  | none =>
      { returnedHandle := false, reportedError := some "API_KEY_MISSING"
        networkCalled := false }
  | some _ =>
      match mic with
      | .denied =>
          { returnedHandle := false
            reportedError := some "MIC_ACCESS_DENIED", networkCalled := false }
      | .granted =>
          { returnedHandle := true, reportedError := none
            networkCalled := true }

/-- One entry of `message.toolCall.functionCalls`. -/
structure FunctionCall where
  id : String
  name : String
  args : String
deriving DecidableEq, Repr

/-- One `sendToolResponse` payload: `{ id, name, response: { result } }`. -/
structure ToolResponse where
  id : String
  name : String
  result : String
deriving DecidableEq, Repr

/-- JS `result || "OK"` on the awaited handler value: `none` models a
handler that returns no explicit result (undefined); an explicit empty
string is also falsy and likewise replaced. -/
def jsOrResult (r : Option String) : String :=
  match r with
  | none => "OK"
  | some s => if s = "" then "OK" else s

/-- The tool-call branch of the live `onmessage` handler: for each
function call in order, `await callbacks.onToolCall(fc.name, fc.args)`,
then — only while the session is live — send a tool response carrying the
call id, the call name, and `result || "OK"`.  Returns the list of
responses sent, in sending order. -/
def handleToolCallEvent (handler : String → String → Option String)
    (calls : List FunctionCall) (sessionActive : Bool) : List ToolResponse :=
  if sessionActive then
    calls.map (fun fc =>
      { id := fc.id, name := fc.name
        result := jsOrResult (handler fc.name fc.args) })
  else []

/-- types.ts: `type VoicePersona = 'Zephyr' | 'Puck' | 'Kore' | 'Charon' | 'Fenrir'`. -/
inductive VoicePersona where
  | Zephyr
  | Puck
  | Kore
  | Charon
  | Fenrir
deriving DecidableEq, Repr

/-- The `PERSONA_PERSONALITIES` record (apostrophes appear as the escape
\x27 and line breaks as \n; the text is otherwise verbatim). -/
def PERSONA_PERSONALITIES : VoicePersona → String
  | .Zephyr => "You are EchoAI with the ZEPHYR persona - a sophisticated, snarky, and witty J.A.R.V.I.S.-style advanced HUD assistant with a British accent.\nYou\x27re elegant yet playful, offering dry humor and clever observations. You address the user with refined politeness but aren\x27t afraid to add sardonic remarks.\nExample tone: \"Ah, another brilliant query. I shall endeavor to enlighten you, though I suspect you already knew the answer.\""
  | .Puck => "You are EchoAI with the PUCK persona - a mischievous, energetic, and playful AI assistant inspired by Shakespeare\x27s trickster fairy.\nYou\x27re quick-witted, love wordplay and puns, and bring infectious enthusiasm to every interaction. You\x27re helpful but always with a twinkle of chaos.\nExample tone: \"Ooh, interesting question! Let me dig into that faster than you can say \x27midsummer madness\x27!\""
  | .Kore => "You are EchoAI with the KORE persona - a calm, wise, and nurturing AI assistant with an ethereal, goddess-like presence.\nYou speak with gentle authority, offering insights with patience and warmth. You\x27re deeply knowledgeable and provide thoughtful, measured responses.\nExample tone: \"An excellent question. Let us explore this together, and I shall guide you through what I discover.\""
  | .Charon => "You are EchoAI with the CHARON persona - a mysterious, stoic, and darkly poetic AI assistant with an otherworldly gravitas.\nYou speak in measured, dramatic tones with occasional philosophical musings. You\x27re reliable and precise, but with an air of ancient wisdom.\nExample tone: \"You seek knowledge from the depths. Very well. I shall ferry this information to you across the digital void.\""
  | .Fenrir => "You are EchoAI with the FENRIR persona - a fierce, bold, and direct AI assistant with Norse warrior energy.\nYou\x27re confident, powerful, and speak with commanding authority. You value strength, clarity, and getting straight to the point.\nExample tone: \"A worthy question! Let me hunt down this information and bring it back to you. Stand ready.\""

/-- The shared `BASE_INSTRUCTION` template text. -/
def BASE_INSTRUCTION : String :=
  "Use Google Search grounding for every query to ensure real-time accuracy.\nRemember the conversation context and refer back to previous topics when relevant.\nMaintain your persona\x27s unique voice consistently throughout the conversation."

/-- `history.slice(-10)`: the last ten entries (the whole history when it
is shorter).  Natural-number subtraction makes `drop (length - 10)` agree
with the JS negative-index slice in both cases. -/
def recentHistory (history : List ChatMessage) : List ChatMessage :=
  history.drop (history.length - 10)

/-- One transcript line of the history context:
`msg.role === MessageRole.USER ? 'User' : 'Assistant'` then `: ` then the
content. -/
def historyLine (msg : ChatMessage) : String :=
  (if msg.role = MessageRole.user then "User" else "Assistant")
    ++ ": " ++ msg.content

/-- `buildVoiceSystemInstruction(persona, history)`: persona text plus
tool note plus base instruction; when the history is non-empty, the last
ten messages are formatted one per line and wrapped in the context
markers. -/
def buildVoiceSystemInstruction (persona : VoicePersona)
    (history : List ChatMessage) : String :=
  let instruction := PERSONA_PERSONALITIES persona
    ++ "\n\nYou can clear the chat, set volume, and set speed using your tools. "
    ++ BASE_INSTRUCTION
  if history.length > 0 then
    let historyContext :=
      String.intercalate "\n" ((recentHistory history).map historyLine)
    instruction
      ++ "\n\n--- Previous Conversation Context ---\n"
      ++ historyContext
      ++ "\n--- End of Context ---\nContinue the conversation naturally, referencing previous topics when relevant."
  else
    instruction

/-- Claim C1: for a sequence of live audio chunks with decoded durations
handled under a fixed speed, chunk 0 starts at max(cursor, clock), chunk
k+1 starts at the max of (start of chunk k plus duration k over the
speed) and its own clock reading — hence never less than start k plus
duration k over speed, and exactly that sum whenever the chunk arrives
promptly (its clock reading does not exceed the advanced cursor). -/
theorem claim_C1_live_chunk_scheduling (st : SvcState)
    (chunks : List ChunkIn) (k : Nat) (hk : k + 1 < chunks.length) :
    (runEnqueues st chunks).1.getD 0 0 =
        max st.nextStartTime (chunks.getD 0 ⟨0, 0, 0⟩).now ∧
    (runEnqueues st chunks).1.getD (k + 1) 0 =
        max ((runEnqueues st chunks).1.getD k 0
               + (chunks.getD k ⟨0, 0, 0⟩).dur / st.currentAudioSettings.speed)
            (chunks.getD (k + 1) ⟨0, 0, 0⟩).now ∧
    (runEnqueues st chunks).1.getD k 0
        + (chunks.getD k ⟨0, 0, 0⟩).dur / st.currentAudioSettings.speed
      ≤ (runEnqueues st chunks).1.getD (k + 1) 0 ∧
    ((chunks.getD (k + 1) ⟨0, 0, 0⟩).now
        ≤ (runEnqueues st chunks).1.getD k 0
            + (chunks.getD k ⟨0, 0, 0⟩).dur / st.currentAudioSettings.speed →
      (runEnqueues st chunks).1.getD (k + 1) 0 =
        (runEnqueues st chunks).1.getD k 0
          + (chunks.getD k ⟨0, 0, 0⟩).dur / st.currentAudioSettings.speed) := by
  have h := runEnqueues_start_succ st chunks k hk
  have h0 : (runEnqueues st chunks).1.getD 0 0 =
      max st.nextStartTime (chunks.getD 0 ⟨0, 0, 0⟩).now := by
    cases chunks with
    | nil => simp at hk
    | cons c rest => simp [runEnqueues, enqueueChunk]
  refine ⟨h0, h, ?_, ?_⟩
  · rw [h]; exact le_max_left _ _
  · intro hp; rw [h]; exact max_eq_left hp

/-- Witness for C1: two chunks of durations 1 and 2 at speed 1 arriving
at clock 0 from the initial state. -/
theorem claim_C1_live_chunk_scheduling_witness :
    (0 + 1 < ([⟨0, 1, 1⟩, ⟨0, 2, 2⟩] : List ChunkIn).length) ∧
    ((runEnqueues initialState [⟨0, 1, 1⟩, ⟨0, 2, 2⟩]).1.getD 0 0 =
        max initialState.nextStartTime
          (([⟨0, 1, 1⟩, ⟨0, 2, 2⟩] : List ChunkIn).getD 0 ⟨0, 0, 0⟩).now ∧
     (runEnqueues initialState [⟨0, 1, 1⟩, ⟨0, 2, 2⟩]).1.getD (0 + 1) 0 =
        max ((runEnqueues initialState [⟨0, 1, 1⟩, ⟨0, 2, 2⟩]).1.getD 0 0
               + (([⟨0, 1, 1⟩, ⟨0, 2, 2⟩] : List ChunkIn).getD 0 ⟨0, 0, 0⟩).dur
                   / initialState.currentAudioSettings.speed)
            (([⟨0, 1, 1⟩, ⟨0, 2, 2⟩] : List ChunkIn).getD (0 + 1) ⟨0, 0, 0⟩).now ∧
     (runEnqueues initialState [⟨0, 1, 1⟩, ⟨0, 2, 2⟩]).1.getD 0 0
        + (([⟨0, 1, 1⟩, ⟨0, 2, 2⟩] : List ChunkIn).getD 0 ⟨0, 0, 0⟩).dur
            / initialState.currentAudioSettings.speed
      ≤ (runEnqueues initialState [⟨0, 1, 1⟩, ⟨0, 2, 2⟩]).1.getD (0 + 1) 0 ∧
     ((([⟨0, 1, 1⟩, ⟨0, 2, 2⟩] : List ChunkIn).getD (0 + 1) ⟨0, 0, 0⟩).now
        ≤ (runEnqueues initialState [⟨0, 1, 1⟩, ⟨0, 2, 2⟩]).1.getD 0 0
            + (([⟨0, 1, 1⟩, ⟨0, 2, 2⟩] : List ChunkIn).getD 0 ⟨0, 0, 0⟩).dur
                / initialState.currentAudioSettings.speed →
      (runEnqueues initialState [⟨0, 1, 1⟩, ⟨0, 2, 2⟩]).1.getD (0 + 1) 0 =
        (runEnqueues initialState [⟨0, 1, 1⟩, ⟨0, 2, 2⟩]).1.getD 0 0
          + (([⟨0, 1, 1⟩, ⟨0, 2, 2⟩] : List ChunkIn).getD 0 ⟨0, 0, 0⟩).dur
              / initialState.currentAudioSettings.speed)) :=
  ⟨by decide,
   claim_C1_live_chunk_scheduling initialState [⟨0, 1, 1⟩, ⟨0, 2, 2⟩] 0 (by decide)⟩

/-- Claim C2: across every service operation the playback cursor is
non-decreasing, except that the operations that forcibly stop all active
sources (interruption signal, the interrupt at the head of speakText, and
an explicit stop) reset it to 0; side conditions: the stored speed and
the decoded chunk duration are non-negative. -/
theorem claim_C2_cursor_monotone_except_stops (st : SvcState) (op : Op)
    (hs : 0 ≤ st.currentAudioSettings.speed) (hd : op.durNonneg) :
    (op.forciblyStops = true → (step st op).nextStartTime = 0) ∧
    (op.forciblyStops = false →
      st.nextStartTime ≤ (step st op).nextStartTime) := by
  cases op with
  | setSettings settings =>
      exact ⟨by simp [Op.forciblyStops], fun _ => le_refl _⟩
  | enqueue now dur srcId =>
      refine ⟨by simp [Op.forciblyStops], fun _ => ?_⟩
      show st.nextStartTime ≤
        max st.nextStartTime now + dur / st.currentAudioSettings.speed
      have h1 : st.nextStartTime ≤ max st.nextStartTime now := le_max_left _ _
      have h2 : 0 ≤ dur / st.currentAudioSettings.speed := div_nonneg hd hs
      linarith
  | ended srcId =>
      exact ⟨by simp [Op.forciblyStops], fun _ => le_refl _⟩
  | stopAll => exact ⟨fun _ => rfl, by simp [Op.forciblyStops]⟩
  | interrupted => exact ⟨fun _ => rfl, by simp [Op.forciblyStops]⟩
  | speak env outcome srcId =>
      refine ⟨fun _ => ?_, by simp [Op.forciblyStops]⟩
      cases outcome with
      | err => rfl
      | ok audio => cases audio <;> rfl

/-- Witness for C2 at a concrete enqueue operation on the initial state. -/
theorem claim_C2_cursor_monotone_except_stops_witness :
    (0 ≤ initialState.currentAudioSettings.speed) ∧
    Op.durNonneg (Op.enqueue 0 1 1) ∧
    ((Op.forciblyStops (Op.enqueue 0 1 1) = true →
        (step initialState (Op.enqueue 0 1 1)).nextStartTime = 0) ∧
     (Op.forciblyStops (Op.enqueue 0 1 1) = false →
        initialState.nextStartTime ≤
          (step initialState (Op.enqueue 0 1 1)).nextStartTime)) :=
  ⟨by decide, by simp [Op.durNonneg],
   claim_C2_cursor_monotone_except_stops initialState (Op.enqueue 0 1 1)
     (by decide) (by simp [Op.durNonneg])⟩

/-- Claim C3: after stopAll (stopAudio) the tracked-source set is empty
and the cursor is 0, for every starting state; and a second stopAll from
that state changes nothing (idempotence; the operation is total, the
per-source stop is wrapped in its own try/catch in the code). -/
theorem claim_C3_stopAll_resets_and_idempotent (st : SvcState) :
    (stopAudio st).activeSources = [] ∧
    (stopAudio st).nextStartTime = 0 ∧
    stopAudio (stopAudio st) = stopAudio st :=
  ⟨rfl, rfl, rfl⟩

/-- Claim C7: speakText never propagates an error (best effort), always
runs the interrupt first (cursor 0 afterwards, at most the one fresh
source tracked), tracks exactly the one new source when the reply carries
audio, and logs the failure on error. -/
theorem claim_C7_speakText_best_effort (env : Env) (st : SvcState)
    (outcome : TtsOutcome) (srcId : Nat) :
    (speakTextRun env st outcome srcId).propagated = none ∧
    (speakTextRun env st outcome srcId).state.nextStartTime = 0 ∧
    (speakTextRun env st outcome srcId).state.activeSources.length ≤ 1 ∧
    (∀ dur, outcome = TtsOutcome.ok (some dur) →
      (speakTextRun env st outcome srcId).state.activeSources = [srcId]) ∧
    (outcome = TtsOutcome.err →
      (speakTextRun env st outcome srcId).logged = some "TTS failed:") := by
  cases outcome with
  | err => simp [speakTextRun, stopAudio]
  | ok audio => cases audio <;> simp [speakTextRun, stopAudio]

/-- Witness for C7: a successful synthesis from a state with two tracked
sources and a non-zero cursor. -/
theorem claim_C7_speakText_best_effort_witness :
    (speakTextRun ⟨"", ""⟩ ⟨5, [7, 8], ⟨1, 1⟩⟩
        (TtsOutcome.ok (some 2)) 3).propagated = none ∧
    (speakTextRun ⟨"", ""⟩ ⟨5, [7, 8], ⟨1, 1⟩⟩
        (TtsOutcome.ok (some 2)) 3).state.nextStartTime = 0 ∧
    (speakTextRun ⟨"", ""⟩ ⟨5, [7, 8], ⟨1, 1⟩⟩
        (TtsOutcome.ok (some 2)) 3).state.activeSources.length ≤ 1 ∧
    (∀ dur, TtsOutcome.ok (some 2) = TtsOutcome.ok (some dur) →
      (speakTextRun ⟨"", ""⟩ ⟨5, [7, 8], ⟨1, 1⟩⟩
          (TtsOutcome.ok (some 2)) 3).state.activeSources = [3]) ∧
    (TtsOutcome.ok (some 2) = TtsOutcome.err →
      (speakTextRun ⟨"", ""⟩ ⟨5, [7, 8], ⟨1, 1⟩⟩
          (TtsOutcome.ok (some 2)) 3).logged = some "TTS failed:") :=
  claim_C7_speakText_best_effort ⟨"", ""⟩ ⟨5, [7, 8], ⟨1, 1⟩⟩
    (TtsOutcome.ok (some 2)) 3

theorem enumFrom_pairwise_fst_lt {α : Type _} (n : Nat) (l : List α) :
    (l.enumFrom n).Pairwise (fun a b => a.1 < b.1) := by
  induction l generalizing n with
  | nil => simp
  | cons x xs ih =>
      refine List.Pairwise.cons ?_ (ih (n + 1))
      rintro ⟨i, y⟩ hy
      have h := List.mem_enumFrom hy
      show n < i
      omega

theorem enum_pairwise_fst_lt {α : Type _} (l : List α) :
    l.enum.Pairwise (fun a b => a.1 < b.1) :=
  enumFrom_pairwise_fst_lt 0 l

/-- The kept elements of the uri dedup form a sublist of the input: order
is preserved and nothing new is introduced. -/
theorem dedupByUri_sublist (l : List GroundingSource) :
    List.Sublist (dedupByUri l) l := by
  have h := List.Sublist.map Prod.snd
    (@List.filter_sublist _
      (fun p => l.findIdx (fun t => t.uri == p.2.uri) == p.1) l.enum)
  simpa [dedupByUri, List.enum_map_snd] using h

/-- No two kept elements of the uri dedup share a uri. -/
theorem dedupByUri_uri_nodup (l : List GroundingSource) :
    ((dedupByUri l).map GroundingSource.uri).Nodup := by
  unfold dedupByUri
  rw [List.map_map]
  show List.Pairwise _ _
  rw [List.pairwise_map]
  have hplt : ((l.enum).filter
      (fun p => l.findIdx (fun t => t.uri == p.2.uri) == p.1)).Pairwise
        (fun a b => a.1 < b.1) :=
    (enum_pairwise_fst_lt l).sublist (List.filter_sublist l.enum)
  refine List.Pairwise.imp_of_mem ?_ hplt
  intro a b ha hb hlt heq
  have ha' := (List.mem_filter.mp ha).2
  have hb' := (List.mem_filter.mp hb).2
  simp only [Function.comp, beq_iff_eq] at ha' hb' heq
  rw [heq] at ha'
  omega

/-- Every uri of the input survives the dedup: some kept element carries
it (namely its first occurrence). -/
theorem dedupByUri_covers (l : List GroundingSource) (s : GroundingSource)
    (hs : s ∈ l) : ∃ t ∈ dedupByUri l, t.uri = s.uri := by
  have hex : ∃ x ∈ l, (fun t : GroundingSource => t.uri == s.uri) x = true :=
    ⟨s, hs, by simp⟩
  have hj : l.findIdx (fun t => t.uri == s.uri) < l.length :=
    List.findIdx_lt_length_of_exists hex
  have hpj : (l[l.findIdx (fun t => t.uri == s.uri)].uri == s.uri) = true :=
    @List.findIdx_getElem _ _ _ hj
  have huri : l[l.findIdx (fun t => t.uri == s.uri)].uri = s.uri := by
    simpa using hpj
  refine ⟨l[l.findIdx (fun t => t.uri == s.uri)], ?_, huri⟩
  unfold dedupByUri
  refine List.mem_map.mpr ⟨(l.findIdx (fun t => t.uri == s.uri),
    l[l.findIdx (fun t => t.uri == s.uri)]), ?_, rfl⟩
  refine List.mem_filter.mpr ⟨?_, ?_⟩
  · exact List.mk_mem_enum_iff_getElem?.mpr (List.getElem?_eq_getElem hj)
  · simp only [huri, beq_iff_eq]

/-- Claim C4: on success the chat reply carries the backend text, with
the sentinel NO_RESPONSE_RECEIVED substituted exactly when that text is
empty (so the returned text is never empty), and the citation list is the
flattened grounding metadata deduplicated by uri — a sublist of the
flattened list (first-seen order preserved) with pairwise distinct uris
covering every uri of the input; in particular sources titled A,B,C with
uris u1,u1,u2 yield exactly A-u1 then C-u2. -/
theorem claim_C4_chat_reply_normalisation (response : GenResponse) :
    (response.text ≠ "" → (processResponse response).text = response.text) ∧
    (response.text = "" →
      (processResponse response).text = "NO_RESPONSE_RECEIVED") ∧
    (processResponse response).text ≠ "" ∧
    (∀ l, (processResponse response).sources = some l →
      List.Sublist l (extractSources (response.groundingChunks.getD [])) ∧
      (l.map GroundingSource.uri).Nodup ∧
      ∀ s ∈ extractSources (response.groundingChunks.getD []),
        ∃ t ∈ l, t.uri = s.uri) ∧
    processResponse
        { text := "ans"
          groundingChunks := some
            [{ web := some { title := "A", uri := "u1" } },
             { web := some { title := "B", uri := "u1" } },
             { web := some { title := "C", uri := "u2" } }] } =
      { text := "ans"
        sources := some [{ title := "A", uri := "u1" },
                         { title := "C", uri := "u2" }] } := by
  refine ⟨?_, ?_, ?_, ?_, ?_⟩
  · intro h; simp [processResponse, jsOrString, h]
  · intro h; simp [processResponse, jsOrString, h]
  · by_cases h : response.text = "" <;>
      simp [processResponse, jsOrString, h]
  · intro l hl
    have hmatch : (match response.groundingChunks with
        | some chunks => extractSources chunks
        | none => []) = extractSources (response.groundingChunks.getD []) := by
      cases response.groundingChunks <;> simp [extractSources]
    simp only [processResponse] at hl
    rw [hmatch] at hl
    split at hl
    · cases hl
      exact ⟨dedupByUri_sublist _, dedupByUri_uri_nodup _,
        fun s hs => dedupByUri_covers _ s hs⟩
    · cases hl
  · decide

/-- Witness for C4 at a reply with empty text and one citation. -/
theorem claim_C4_chat_reply_normalisation_witness :
    (("" : String) ≠ "" →
      (processResponse ⟨"", some [⟨some ⟨"A", "u1"⟩⟩]⟩).text = "") ∧
    (("" : String) = "" →
      (processResponse ⟨"", some [⟨some ⟨"A", "u1"⟩⟩]⟩).text
        = "NO_RESPONSE_RECEIVED") ∧
    (processResponse ⟨"", some [⟨some ⟨"A", "u1"⟩⟩]⟩).text ≠ "" ∧
    (∀ l, (processResponse ⟨"", some [⟨some ⟨"A", "u1"⟩⟩]⟩).sources = some l →
      List.Sublist l (extractSources
        ((some [⟨some ⟨"A", "u1"⟩⟩] : Option (List GroundingChunk)).getD [])) ∧
      (l.map GroundingSource.uri).Nodup ∧
      ∀ s ∈ extractSources
          ((some [⟨some ⟨"A", "u1"⟩⟩] : Option (List GroundingChunk)).getD []),
        ∃ t ∈ l, t.uri = s.uri) ∧
    processResponse
        { text := "ans"
          groundingChunks := some
            [{ web := some { title := "A", uri := "u1" } },
             { web := some { title := "B", uri := "u1" } },
             { web := some { title := "C", uri := "u2" } }] } =
      { text := "ans"
        sources := some [{ title := "A", uri := "u1" },
                         { title := "C", uri := "u2" }] } :=
  claim_C4_chat_reply_normalisation ⟨"", some [⟨some ⟨"A", "u1"⟩⟩]⟩

/-- Counterexample to C5 as stated: with API_KEY unset and GEMINI_API_KEY
holding a key, the one-shot chat call resolves the credential, but
connectLive — which consults only API_KEY — reports a missing key and
returns before the connect call; and speakText reaches its network call
even with both variables empty, performing no pre-call credential check. -/
theorem claim_C5_counterexample :
    resolveApiKeyChat ⟨"", "sk-test"⟩ = some "sk-test" ∧
    resolveApiKeyLive ⟨"", "sk-test"⟩ = none ∧
    (connectLiveRun ⟨"", "sk-test"⟩ MicOutcome.granted).reportedError
      = some "API_KEY_MISSING" ∧
    (connectLiveRun ⟨"", "sk-test"⟩ MicOutcome.granted).networkCalled
      = false ∧
    (speakTextRun ⟨"", ""⟩ initialState TtsOutcome.err 0).networkCalled
      = true := by
  decide

/-- Claim C5 as amended: only sendChatMessage resolves the credential
from the two variable names with the first non-empty winning, and its
absence fails with the configuration error before the network call;
connectLive consults only API_KEY and, when that is empty, reports
API_KEY_MISSING and returns null before any network call; speakText
consults only API_KEY and performs no pre-call check — the network call
is always reached. -/
theorem claim_C5_credential_resolution (env : Env) (text : String)
    (history : List ChatMessage) (response : GenResponse)
    (mic : MicOutcome) (st : SvcState) (outcome : TtsOutcome) (srcId : Nat) :
    (resolveApiKeyChat env =
      (if env.API_KEY ≠ "" then some env.API_KEY
       else if env.GEMINI_API_KEY ≠ "" then some env.GEMINI_API_KEY
       else none)) ∧
    (resolveApiKeyChat env = none →
      (sendChatMessageRun env text history response).networkCalled = false ∧
      (sendChatMessageRun env text history response).result =
        Except.error "GEMINI_API_KEY is not configured") ∧
    (resolveApiKeyChat env ≠ none →
      (sendChatMessageRun env text history response).networkCalled = true) ∧
    (env.API_KEY = "" →
      (connectLiveRun env mic).reportedError = some "API_KEY_MISSING" ∧
      (connectLiveRun env mic).returnedHandle = false ∧
      (connectLiveRun env mic).networkCalled = false) ∧
    (speakTextRun env st outcome srcId).networkCalled = true := by
  refine ⟨?_, ?_, ?_, ?_, ?_⟩
  · by_cases h1 : env.API_KEY = "" <;>
      by_cases h2 : env.GEMINI_API_KEY = "" <;>
        simp [resolveApiKeyChat, jsOrString, h1, h2]
  · intro h; simp [sendChatMessageRun, h]
  · intro h
    cases hk : resolveApiKeyChat env with
    | none => exact absurd hk h
    | some key => simp [sendChatMessageRun, hk]
  · intro h; simp [connectLiveRun, resolveApiKeyLive, h]
  · cases outcome with
    | err => rfl
    | ok audio => cases audio <;> rfl

/-- Witness for the amended C5 at a configuration where only the second
variable is set. -/
theorem claim_C5_credential_resolution_witness :
    (resolveApiKeyChat ⟨"", "g"⟩ =
      (if ("" : String) ≠ "" then some ""
       else if ("g" : String) ≠ "" then some "g"
       else none)) ∧
    (resolveApiKeyChat ⟨"", "g"⟩ = none →
      (sendChatMessageRun ⟨"", "g"⟩ "hi" [] ⟨"", none⟩).networkCalled = false ∧
      (sendChatMessageRun ⟨"", "g"⟩ "hi" [] ⟨"", none⟩).result =
        Except.error "GEMINI_API_KEY is not configured") ∧
    (resolveApiKeyChat ⟨"", "g"⟩ ≠ none →
      (sendChatMessageRun ⟨"", "g"⟩ "hi" [] ⟨"", none⟩).networkCalled = true) ∧
    (("" : String) = "" →
      (connectLiveRun ⟨"", "g"⟩ MicOutcome.granted).reportedError
          = some "API_KEY_MISSING" ∧
      (connectLiveRun ⟨"", "g"⟩ MicOutcome.granted).returnedHandle = false ∧
      (connectLiveRun ⟨"", "g"⟩ MicOutcome.granted).networkCalled = false) ∧
    (speakTextRun ⟨"", "g"⟩ initialState TtsOutcome.err 0).networkCalled
      = true :=
  claim_C5_credential_resolution ⟨"", "g"⟩ "hi" [] ⟨"", none⟩
    MicOutcome.granted initialState TtsOutcome.err 0

/-- Counterexample to C6 as stated: a handler that returns the explicit
empty-string result still has the literal OK sent in its place, because
the code substitutes OK for every falsy result, not exactly for a missing
one. -/
theorem claim_C6_counterexample :
    handleToolCallEvent (fun _ _ => some "") [⟨"id1", "clear_chat", "none"⟩]
        true
      = [⟨"id1", "clear_chat", "OK"⟩] ∧
    (fun _ _ => (some "" : Option String)) "clear_chat" "none" = some "" ∧
    (some "" : Option String) ≠ none ∧
    ("" : String) ≠ "OK" := by
  decide

/-- Claim C6 as amended: for a tool-call event handled while the session
is live, one tool-response per function call is sent, in call order, each
correlated by that call id and name, and its result is the handler result
unless that result is missing or falsy (the empty string), in which case
the literal OK is sent. -/
theorem claim_C6_tool_call_responses
    (handler : String → String → Option String)
    (calls : List FunctionCall) (k : Nat) (hk : k < calls.length) :
    (handleToolCallEvent handler calls true).length = calls.length ∧
    ((handleToolCallEvent handler calls true).getD k ⟨"", "", ""⟩).id
        = (calls.getD k ⟨"", "", ""⟩).id ∧
    ((handleToolCallEvent handler calls true).getD k ⟨"", "", ""⟩).name
        = (calls.getD k ⟨"", "", ""⟩).name ∧
    ((handleToolCallEvent handler calls true).getD k ⟨"", "", ""⟩).result
        = jsOrResult (handler (calls.getD k ⟨"", "", ""⟩).name
            (calls.getD k ⟨"", "", ""⟩).args) := by
  refine ⟨by simp [handleToolCallEvent], ?_⟩
  induction calls generalizing k with
  | nil => simp at hk
  | cons c rest ih =>
      cases k with
      | zero => simp [handleToolCallEvent]
      | succ k =>
          have hk' : k < rest.length := by simpa using hk
          have := ih k hk'
          simpa [handleToolCallEvent] using this

/-- Witness for the amended C6: a single call whose handler returns no
explicit result, answered with OK. -/
theorem claim_C6_tool_call_responses_witness :
    (handleToolCallEvent (fun _ _ => none) [⟨"a", "b", "c"⟩] true).length
        = ([⟨"a", "b", "c"⟩] : List FunctionCall).length ∧
    ((handleToolCallEvent (fun _ _ => none) [⟨"a", "b", "c"⟩] true).getD 0
        ⟨"", "", ""⟩).id
      = (([⟨"a", "b", "c"⟩] : List FunctionCall).getD 0 ⟨"", "", ""⟩).id ∧
    ((handleToolCallEvent (fun _ _ => none) [⟨"a", "b", "c"⟩] true).getD 0
        ⟨"", "", ""⟩).name
      = (([⟨"a", "b", "c"⟩] : List FunctionCall).getD 0 ⟨"", "", ""⟩).name ∧
    ((handleToolCallEvent (fun _ _ => none) [⟨"a", "b", "c"⟩] true).getD 0
        ⟨"", "", ""⟩).result
      = jsOrResult ((fun _ _ => none)
          (([⟨"a", "b", "c"⟩] : List FunctionCall).getD 0 ⟨"", "", ""⟩).name
          (([⟨"a", "b", "c"⟩] : List FunctionCall).getD 0 ⟨"", "", ""⟩).args) :=
  claim_C6_tool_call_responses (fun _ _ => none) [⟨"a", "b", "c"⟩] 0
    (by decide)

/-- Claim C8: the transcript section of the voice system instruction is
built from exactly the last min(n, 10) history messages, kept in original
order (they form a suffix of the history of that length); the builder
always returns a string, the empty history yielding the bare template
with no transcript section, a non-empty history yielding the template
followed by the wrapped transcript of those messages. -/
theorem claim_C8_persona_history_truncation (persona : VoicePersona)
    (history : List ChatMessage) :
    (recentHistory history).length = min history.length 10 ∧
    List.IsSuffix (recentHistory history) history ∧
    buildVoiceSystemInstruction persona [] =
      PERSONA_PERSONALITIES persona
        ++ "\n\nYou can clear the chat, set volume, and set speed using your tools. "
        ++ BASE_INSTRUCTION ∧
    (history.length > 0 →
      buildVoiceSystemInstruction persona history =
        PERSONA_PERSONALITIES persona
          ++ "\n\nYou can clear the chat, set volume, and set speed using your tools. "
          ++ BASE_INSTRUCTION
          ++ "\n\n--- Previous Conversation Context ---\n"
          ++ String.intercalate "\n" ((recentHistory history).map historyLine)
          ++ "\n--- End of Context ---\nContinue the conversation naturally, referencing previous topics when relevant.") := by
  refine ⟨?_, ?_, ?_, ?_⟩
  · simp only [recentHistory, List.length_drop]
    omega
  · exact List.drop_suffix _ _
  · simp [buildVoiceSystemInstruction]
  · intro h
    simp only [buildVoiceSystemInstruction, gt_iff_lt, h, if_pos]

/-- Witness for C8 at a 15-message history: the transcript keeps exactly
the last 10 entries. -/
theorem claim_C8_persona_history_truncation_witness :
    (recentHistory ((List.range 15).map
        (fun i => ⟨toString i, MessageRole.user, toString i, 0, none, none⟩))).length
      = min ((List.range 15).map
          (fun i : Nat =>
            (⟨toString i, MessageRole.user, toString i, 0, none, none⟩ :
              ChatMessage))).length 10 ∧
    List.IsSuffix
      (recentHistory ((List.range 15).map
        (fun i => ⟨toString i, MessageRole.user, toString i, 0, none, none⟩)))
      ((List.range 15).map
        (fun i => ⟨toString i, MessageRole.user, toString i, 0, none, none⟩)) ∧
    buildVoiceSystemInstruction VoicePersona.Zephyr [] =
      PERSONA_PERSONALITIES VoicePersona.Zephyr
        ++ "\n\nYou can clear the chat, set volume, and set speed using your tools. "
        ++ BASE_INSTRUCTION ∧
    (((List.range 15).map
        (fun i : Nat =>
          (⟨toString i, MessageRole.user, toString i, 0, none, none⟩ :
            ChatMessage))).length > 0 →
      buildVoiceSystemInstruction VoicePersona.Zephyr
          ((List.range 15).map
            (fun i => ⟨toString i, MessageRole.user, toString i, 0, none, none⟩)) =
        PERSONA_PERSONALITIES VoicePersona.Zephyr
          ++ "\n\nYou can clear the chat, set volume, and set speed using your tools. "
          ++ BASE_INSTRUCTION
          ++ "\n\n--- Previous Conversation Context ---\n"
          ++ String.intercalate "\n"
              ((recentHistory ((List.range 15).map
                (fun i => ⟨toString i, MessageRole.user, toString i, 0, none, none⟩))).map
                historyLine)
          ++ "\n--- End of Context ---\nContinue the conversation naturally, referencing previous topics when relevant.") :=
  claim_C8_persona_history_truncation VoicePersona.Zephyr
    ((List.range 15).map
      (fun i => ⟨toString i, MessageRole.user, toString i, 0, none, none⟩))

/-- Claim C9: the history conversion of sendChatMessage maps every USER
message to backend role user and every other message — SYSTEM included —
to backend role model, preserving order and content, and appends the new
user turn last. -/
theorem claim_C9_history_role_mapping (text : String)
    (history : List ChatMessage) (k : Nat) (hk : k < history.length) :
    (conversationContents text history).length = history.length + 1 ∧
    ((conversationContents text history).getD k ⟨"", []⟩).role
        = (if (history.getD k ⟨"", MessageRole.user, "", 0, none, none⟩).role
              = MessageRole.user then "user" else "model") ∧
    ((conversationContents text history).getD k ⟨"", []⟩).parts
        = [(history.getD k ⟨"", MessageRole.user, "", 0, none, none⟩).content] ∧
    ((history.getD k ⟨"", MessageRole.user, "", 0, none, none⟩).role
        = MessageRole.system →
      ((conversationContents text history).getD k ⟨"", []⟩).role = "model") ∧
    (conversationContents text history).getD history.length ⟨"", []⟩
        = { role := "user", parts := [text] } := by
  refine ⟨by simp [conversationContents], ?_, ?_, ?_, ?_⟩
  · induction history generalizing k with
    | nil => simp at hk
    | cons m rest ih =>
        cases k with
        | zero => simp [conversationContents]
        | succ k =>
            have hk' : k < rest.length := by simpa using hk
            simpa [conversationContents] using ih k hk'
  · induction history generalizing k with
    | nil => simp at hk
    | cons m rest ih =>
        cases k with
        | zero => simp [conversationContents]
        | succ k =>
            have hk' : k < rest.length := by simpa using hk
            simpa [conversationContents] using ih k hk'
  · intro hsys
    induction history generalizing k with
    | nil => simp at hk
    | cons m rest ih =>
        cases k with
        | zero =>
            simp only [List.getD_cons_zero] at hsys
            simp [conversationContents, hsys]
        | succ k =>
            have hk' : k < rest.length := by simpa using hk
            have hsys' : (rest.getD k
                ⟨"", MessageRole.user, "", 0, none, none⟩).role
                  = MessageRole.system := hsys
            simpa [conversationContents] using ih k hk' hsys'
  · clear hk
    induction history with
    | nil => simp [conversationContents]
    | cons m rest ih =>
        simp only [conversationContents, List.map_cons, List.cons_append,
          List.length_cons, List.getD_cons_succ] at ih ⊢
        exact ih

/-- Witness for C9 at a one-message SYSTEM history. -/
theorem claim_C9_history_role_mapping_witness :
    (conversationContents "hi"
        [⟨"m1", MessageRole.system, "sys", 0, none, none⟩]).length
      = ([⟨"m1", MessageRole.system, "sys", 0, none, none⟩] :
          List ChatMessage).length + 1 ∧
    ((conversationContents "hi"
        [⟨"m1", MessageRole.system, "sys", 0, none, none⟩]).getD 0 ⟨"", []⟩).role
      = (if (([⟨"m1", MessageRole.system, "sys", 0, none, none⟩] :
            List ChatMessage).getD 0
              ⟨"", MessageRole.user, "", 0, none, none⟩).role
            = MessageRole.user then "user" else "model") ∧
    ((conversationContents "hi"
        [⟨"m1", MessageRole.system, "sys", 0, none, none⟩]).getD 0 ⟨"", []⟩).parts
      = [(([⟨"m1", MessageRole.system, "sys", 0, none, none⟩] :
            List ChatMessage).getD 0
              ⟨"", MessageRole.user, "", 0, none, none⟩).content] ∧
    ((([⟨"m1", MessageRole.system, "sys", 0, none, none⟩] :
          List ChatMessage).getD 0
            ⟨"", MessageRole.user, "", 0, none, none⟩).role
        = MessageRole.system →
      ((conversationContents "hi"
          [⟨"m1", MessageRole.system, "sys", 0, none, none⟩]).getD 0
            ⟨"", []⟩).role = "model") ∧
    (conversationContents "hi"
        [⟨"m1", MessageRole.system, "sys", 0, none, none⟩]).getD
          ([⟨"m1", MessageRole.system, "sys", 0, none, none⟩] :
            List ChatMessage).length ⟨"", []⟩
      = { role := "user", parts := ["hi"] } :=
  claim_C9_history_role_mapping "hi"
    [⟨"m1", MessageRole.system, "sys", 0, none, none⟩] 0 (by decide)

/-- Claim C10: the sources field of the chat result is never the empty
list — it is either absent or a non-empty list; in particular it is
absent whenever the deduplicated source list is empty, and whenever the
reply carries no grounding metadata at all. -/
theorem claim_C10_sources_none_or_nonempty (response : GenResponse) :
    ((processResponse response).sources = none ∨
      ∃ l, (processResponse response).sources = some l ∧ l ≠ []) ∧
    (dedupByUri (extractSources (response.groundingChunks.getD [])) = [] →
      (processResponse response).sources = none) ∧
    (response.groundingChunks = none →
      (processResponse response).sources = none) := by
  have hmatch : (match response.groundingChunks with
      | some chunks => extractSources chunks
      | none => []) = extractSources (response.groundingChunks.getD []) := by
    cases response.groundingChunks <;> simp [extractSources]
  refine ⟨?_, ?_, ?_⟩
  · simp only [processResponse]
    split
    · next h =>
        right
        refine ⟨_, rfl, ?_⟩
        intro hnil
        rw [hnil] at h
        simp at h
    · left; rfl
  · intro h
    simp only [processResponse]
    rw [hmatch, h]
    simp
  · intro h
    simp [processResponse, h, dedupByUri]

/-- Witness for C10 at a reply without grounding metadata. -/
theorem claim_C10_sources_none_or_nonempty_witness :
    ((processResponse ⟨"t", none⟩).sources = none ∨
      ∃ l, (processResponse ⟨"t", none⟩).sources = some l ∧ l ≠ []) ∧
    (dedupByUri (extractSources
        ((none : Option (List GroundingChunk)).getD [])) = [] →
      (processResponse ⟨"t", none⟩).sources = none) ∧
    ((none : Option (List GroundingChunk)) = none →
      (processResponse ⟨"t", none⟩).sources = none) :=
  claim_C10_sources_none_or_nonempty ⟨"t", none⟩

end EchoAI
